import Mathlib

/-!
Verification development for the CareOrbit multi-agent healthcare coordination
backend (`backend/main.py`).  The orchestration core — keyword routing,
the four agents' deterministic demo-mode behaviour, response synthesis and
result aggregation — is shallowly embedded below; the external Azure OpenAI
call is modelled in its demo-mode fallback (no credentials configured), which
is the deterministic path of `BaseAgent._call_azure_openai`.
Python strings are modelled as Lean `String` (lists of characters);
Python's substring test `needle in hay` is modelled by `pyIn`,
`str.lower()` by `strLower`, and `sep.join(xs)` by `pyJoin`.
-/

/-- Python `startswith` on character lists: `startsWithChars h p` is true iff
`p` is a prefix of `h`. -/
def startsWithChars : List Char → List Char → Bool
  | _, [] => true
  | [], _ :: _ => false
  | c :: hs, d :: ps => c == d && startsWithChars hs ps

/-- Containment of `pat` as a contiguous run inside `hay`
(Python's `pat in hay` for strings). -/
def charsContain : List Char → List Char → Bool
  | [], pat => pat == []
  | hay@(_ :: t), pat => startsWithChars hay pat || charsContain t pat

/-- Python `needle in hay` for strings. -/
def pyIn (needle hay : String) : Bool := charsContain hay.data needle.data

/-- Python `str.lower()`: lower-case every character. -/
def strLower (s : String) : String := ⟨s.data.map Char.toLower⟩

/-- Python `sep.join(xs)`. -/
def pyJoin (sep : String) : List String → String
  | [] => ""
  | [x] => x
  | x :: y :: rest => x ++ sep ++ pyJoin sep (y :: rest)

/-- Concatenation of a list of strings (used to state fold-free forms of the
string-building loops). -/
def concatAll : List String → String
  | [] => ""
  | s :: rest => s ++ concatAll rest

/-! ## Data model (the fields of `main.py`'s pydantic models that the
orchestration core reads; unused CRUD fields such as dosage, prescriber,
e-mail, … are omitted). -/

inductive MedicationStatus
  | active
  | stopped
  | onHold
  | completed
deriving DecidableEq

inductive AppointmentStatus
  | scheduled
  | completed
  | cancelled
  | noShow
deriving DecidableEq

inductive CareGapSeverity
  | low
  | medium
  | high
  | critical
deriving DecidableEq

structure Patient where
  id : String
  conditions : List String
  allergies : List String
deriving DecidableEq

structure Medication where
  patient_id : String
  name : String
  status : MedicationStatus
deriving DecidableEq

structure Appointment where
  patient_id : String
  specialty : String
  /-- `appointment_date`, abstracted to a day number (`datetime` ordering is
  the only operation the core applies to it, besides display). -/
  appointment_date : Nat
  status : AppointmentStatus
deriving DecidableEq

structure CareGap where
  id : String
  patient_id : String
  title : String
  severity : CareGapSeverity
  recommended_action : String
  resolved : Bool
deriving DecidableEq

structure AgentResponse where
  agent_name : String
  response : String
  /-- `confidence`, stored in hundredths (Python `0.95` ↦ `95`, the
  synthesizer threshold `0.7` ↦ `70`, `0.0` ↦ `0`).  Every confidence in the
  source is an exact two-decimal constant only ever compared with `>`, so
  this scaling preserves all comparisons. -/
  confidence : Nat
  actions_taken : List String
  recommendations : List String
deriving DecidableEq

structure OrchestrationResult where
  primary_response : String
  agent_contributions : List AgentResponse
  care_gaps_detected : List CareGap
  medication_alerts : List String
  appointment_suggestions : List String
deriving DecidableEq

/-- The in-memory `Database`; Python `dict.values()` iteration order is
insertion order, so each table is a list. -/
structure Database where
  patients : List Patient
  medications : List Medication
  appointments : List Appointment
  care_gaps : List CareGap

/-! ## MedicationReconciliationAgent: the static interaction table and
`_check_interactions`. -/

/-- `MedicationReconciliationAgent.INTERACTIONS` (dict insertion order). -/
def INTERACTIONS : List ((String × String) × String) :=
  [(("metformin", "contrast"),
    "Metformin should be held 48 hours before and after IV contrast procedures"),
   (("lisinopril", "potassium"),
    "ACE inhibitors can increase potassium levels - monitor carefully"),
   (("carvedilol", "metformin"),
    "Beta-blockers may mask hypoglycemia symptoms in diabetics"),
   (("sertraline", "nsaids"),
    "SSRIs with NSAIDs increase bleeding risk"),
   (("furosemide", "lisinopril"),
    "Both affect blood pressure - monitor for hypotension")]

/-- The hard-coded beta-blocker + biguanide combination warning. -/
def hypoglycemiaWarning : String :=
  "⚠️ Carvedilol may mask low blood sugar symptoms. Monitor glucose carefully."

/-- `med_names` of `_check_interactions`: lower-cased names of the active
medications, in list order. -/
def activeMedNames (medications : List Medication) : List String :=
  (medications.filter (fun m => decide (m.status = MedicationStatus.active))).map
    (fun m => strLower m.name)

/-- One iteration of the `for (drug1, drug2), warning in INTERACTIONS` loop:
the outer guard is exact list membership (`drug1 in med_names`), the inner
loop appends the warning once if some medication name contains either drug as
a substring. -/
def pairAlerts (med_names : List String) (entry : (String × String) × String) :
    List String :=
  if entry.1.1 ∈ med_names ∨ entry.1.2 ∈ med_names then
    if med_names.any (fun n =>
        pyIn entry.1.1 (strLower n) || pyIn entry.1.2 (strLower n)) then
      [entry.2]
    else []
  else []

/-- `MedicationReconciliationAgent._check_interactions`.  Python's final
`list(set(alerts))` is modelled as `List.dedup` (membership-preserving;
Python leaves the order unspecified). -/
def check_interactions (medications : List Medication) : List String :=
  let med_names := activeMedNames medications
  let alerts := (INTERACTIONS.map (pairAlerts med_names)).flatten
  let alerts := alerts ++
    (if pyIn "carvedilol" (strLower (pyJoin " " med_names)) &&
        pyIn "metformin" (strLower (pyJoin " " med_names)) then
      [hypoglycemiaWarning]
    else [])
  alerts.dedup

/-! ## Agents.  Azure credentials are unset in the modelled configuration, so
`_call_azure_openai` always takes its demo-mode fallback `_demo_response`;
each agent is then a deterministic function of the database snapshot. -/

/-- `PatientHistoryAgent._demo_response` (the `process` path always passes a
patient in the context). -/
def historyDemo (patientOpt : Option Patient) : String :=
  match patientOpt with
  | some patient =>
    "Based on the patient\x27s history, they are managing " ++
      pyJoin ", " (patient.conditions.take 3) ++
      ". Their care involves multiple specialists coordinating treatment across these conditions."
  | none =>
    "I can help you understand your complete medical history and how your conditions relate to each other."

/-- `PatientHistoryAgent.process`: unknown patient short-circuits to the
zero-confidence canned response. -/
def historyProcess (db : Database) (pid msg : String) : AgentResponse :=
  match db.patients.find? (fun p => decide (p.id = pid)) with
  | none =>
    { agent_name := "Patient History Agent"
      response := "Patient not found in the system."
      confidence := 0
      actions_taken := []
      recommendations := [] }
  | some patient =>
    { agent_name := "Patient History Agent"
      response := historyDemo (some patient)
      confidence := 90
      actions_taken := ["Analyzed patient history", "Reviewed condition relationships"]
      recommendations := ["Continue coordinating care across all specialists"] }

/-- `MedicationReconciliationAgent._demo_response`. -/
def medicationDemo (medications : List Medication) : String :=
  if medications.isEmpty then
    "I help manage your medications and check for potential interactions between drugs from different doctors."
  else
    "You are currently taking " ++ toString medications.length ++
      " active medications from multiple specialists. I\x27m monitoring for interactions and will alert you to any concerns."

/-- The two comprehensions at the head of `MedicationReconciliationAgent.process`:
the patient's medications, then the active ones. -/
def patientActiveMeds (db : Database) (pid : String) : List Medication :=
  (db.medications.filter (fun m => decide (m.patient_id = pid))).filter
    (fun m => decide (m.status = MedicationStatus.active))

/-- `MedicationReconciliationAgent.process`. -/
def medicationProcess (db : Database) (pid msg : String) : AgentResponse :=
  let active_meds := patientActiveMeds db pid
  let interaction_alerts := check_interactions active_meds
  let response := medicationDemo active_meds
  let response :=
    if !interaction_alerts.isEmpty && pyIn "medication" (strLower msg) then
      response ++ "\n\n⚠️ **Important Alerts:**\n" ++
        pyJoin "\n" (interaction_alerts.map (fun a => "• " ++ a))
    else response
  { agent_name := "Medication Reconciliation Agent"
    response := response
    confidence := 95
    actions_taken := ["Reviewed medication list", "Checked drug interactions"]
    recommendations :=
      if interaction_alerts.isEmpty then ["Continue current medication regimen"]
      else interaction_alerts }

/-- Unresolved care gaps of a patient, in store iteration order (shared by
`CareGapDetectionAgent.process` and `OrchestratorAgent.process_message`). -/
def unresolvedGaps (db : Database) (pid : String) : List CareGap :=
  db.care_gaps.filter (fun g => decide (g.patient_id = pid ∧ g.resolved = false))

/-- `CareGapDetectionAgent._demo_response`. -/
def careGapDemo (care_gaps : List CareGap) : String :=
  if care_gaps.isEmpty then
    "I monitor your care against clinical guidelines to ensure you\x27re receiving all recommended screenings and preventive care."
  else
    let high_priority := care_gaps.filter (fun g =>
      decide (g.severity = CareGapSeverity.high ∨ g.severity = CareGapSeverity.critical))
    "I\x27ve identified " ++ toString care_gaps.length ++ " care gaps, with " ++
      toString high_priority.length ++
      " requiring prompt attention. Let me help you prioritize these."

/-- `CareGapDetectionAgent.process`. -/
def careGapProcess (db : Database) (pid msg : String) : AgentResponse :=
  let patient_gaps := unresolvedGaps db pid
  { agent_name := "Care Gap Detection Agent"
    response := careGapDemo patient_gaps
    confidence := 90
    actions_taken := ["Reviewed clinical guidelines", "Identified care gaps"]
    recommendations := (patient_gaps.take 3).map (fun g => g.recommended_action) }

/-- `AppointmentCoordinationAgent._demo_response` (its context already holds
only the scheduled upcoming appointments, which it filters again by status). -/
def appointmentDemo (appointments : List Appointment) : String :=
  let upcoming := appointments.filter (fun a => decide (a.status = AppointmentStatus.scheduled))
  if upcoming.isEmpty then
    "I help coordinate your appointments across all your specialists to minimize travel and ensure comprehensive care."
  else
    "You have " ++ toString upcoming.length ++
      " upcoming appointments. I can help you prepare for each visit and ensure your doctors have the information they need."

/-- `AppointmentCoordinationAgent.process`.  `now` stands for
`datetime.now()`; the `strftime` date rendering inside the recommendation
string is abstracted to the numeric rendering of the day number (no claim
inspects it). -/
def appointmentProcess (db : Database) (now : Nat) (pid msg : String) : AgentResponse :=
  let patient_apts := db.appointments.filter (fun a => decide (a.patient_id = pid))
  let upcoming := patient_apts.filter (fun a =>
    decide (a.status = AppointmentStatus.scheduled ∧ now < a.appointment_date))
  { agent_name := "Appointment Coordination Agent"
    response := appointmentDemo upcoming
    confidence := 85
    actions_taken := ["Reviewed appointment schedule", "Analyzed coordination opportunities"]
    recommendations := (upcoming.take 2).map (fun a =>
      "Prepare questions for " ++ a.specialty ++ " appointment on " ++
        toString a.appointment_date) }

/-! ## Orchestrator. -/

def historyKeywords : List String :=
  ["history", "condition", "diagnosis", "health", "overview", "summary"]

def medicationKeywords : List String :=
  ["medication", "medicine", "drug", "pill", "prescription", "dose", "interaction"]

def careGapKeywords : List String :=
  ["screening", "test", "exam", "checkup", "preventive", "gap", "overdue", "due"]

def appointmentKeywords : List String :=
  ["appointment", "visit", "schedule", "doctor", "specialist", "telehealth"]

def broadKeywords : List String := ["help", "what", "how", "everything", "all"]

/-- `list(self.agents.keys())` — the registry's insertion order. -/
def allAgentKeys : List String := ["history", "medication", "care_gap", "appointment"]

/-- The four keyword tests of `_determine_relevant_agents`, appending the
matching agent keys in source order. -/
def routerMatches (message : String) : List String :=
  (if historyKeywords.any (fun w => pyIn w (strLower message)) then ["history"] else []) ++
  (if medicationKeywords.any (fun w => pyIn w (strLower message)) then ["medication"] else []) ++
  (if careGapKeywords.any (fun w => pyIn w (strLower message)) then ["care_gap"] else []) ++
  (if appointmentKeywords.any (fun w => pyIn w (strLower message)) then ["appointment"] else [])

/-- `OrchestratorAgent._determine_relevant_agents`. -/
def determine_relevant_agents (message : String) : List String :=
  if (routerMatches message).isEmpty ||
      broadKeywords.any (fun w => pyIn w (strLower message)) then
    allAgentKeys
  else
    routerMatches message

/-- `OrchestratorAgent._synthesize_responses`. -/
def synthesize_responses (message : String) (agent_responses : List AgentResponse) : String :=
  match agent_responses with
  | [] =>
    "I\x27m here to help coordinate your healthcare. Could you tell me more about what you\x27d like to know?"
  | [r] => r.response
  | _ :: _ :: _ =>
    let synthesis := agent_responses.foldl
      (fun s r =>
        if 70 < r.confidence then
          s ++ ("**" ++ r.agent_name ++ "**: " ++ r.response ++ "\n\n")
        else s)
      "Based on my analysis across your care team:\n\n"
    let all_recommendations := agent_responses.foldl
      (fun acc r => acc ++ r.recommendations.take 2) ([] : List String)
    if all_recommendations.isEmpty then synthesis
    else
      (all_recommendations.take 4).foldl
        (fun s rc => s ++ ("• " ++ rc ++ "\n"))
        (synthesis ++ "**Key Recommendations:**\n")

/-- Dispatch of `self.agents[agent_key].process` (the orchestrator only ever
produces the four registry keys). -/
def runAgent (db : Database) (now : Nat) (key pid msg : String) : AgentResponse :=
  if key = "history" then historyProcess db pid msg
  else if key = "medication" then medicationProcess db pid msg
  else if key = "care_gap" then careGapProcess db pid msg
  else appointmentProcess db now pid msg

/-- The `medication_alerts` filter of `process_message`: recommendations that
contain the warning glyph or the substring "alert" (case-insensitive). -/
def isWarning (s : String) : Bool := pyIn "⚠️" s || pyIn "alert" (strLower s)

/-- The `appointment_suggestions` comprehension body of `process_message`:
first recommendation of an Appointment-agent response that has any. -/
def pickAppointmentFirst (r : AgentResponse) : Option String :=
  if r.agent_name = "Appointment Coordination Agent" then r.recommendations.head?
  else none

/-- `OrchestratorAgent.process_message`.  In the modelled demo-mode
configuration no agent ever raises, so the `asyncio.gather` +
`isinstance`-filter step keeps every launched agent's response, in launch
order. -/
def processMessage (db : Database) (now : Nat) (pid msg : String) : OrchestrationResult :=
  let relevant_agents := determine_relevant_agents msg
  let valid_responses := relevant_agents.map (fun key => runAgent db now key pid msg)
  let primary_response := synthesize_responses msg valid_responses
  let patient_gaps := unresolvedGaps db pid
  let medication_alerts := valid_responses.foldl
    (fun acc r =>
      if r.agent_name = "Medication Reconciliation Agent" then
        acc ++ r.recommendations.filter isWarning
      else acc) []
  { primary_response := primary_response
    agent_contributions := valid_responses
    care_gaps_detected := patient_gaps.take 3
    medication_alerts := medication_alerts
    appointment_suggestions := (valid_responses.filterMap pickAppointmentFirst).take 2 }

/-! ## Spec-side synthesizer definitions (for the refinement claim C1).
`synthesizeSpecClaimed` follows the spec's words as the claim states them;
`synthesizeSpecAmended` follows the amended wording forced by the
counterexample. -/

/-- Modelled from the spec, claim C1 as stated: with two or more responses,
the composite holds exactly the responses with confidence > 0.7, each
prefixed by its agent name, followed by a deduplicated merged list of at most
4 recommendations taken from at most the first 2 recommendations of each
included (confidence > 0.7) response, in response order. -/
def synthesizeSpecClaimed (responses : List AgentResponse) : String :=
  match responses with
  | [] =>
    "I\x27m here to help coordinate your healthcare. Could you tell me more about what you\x27d like to know?"
  | [r] => r.response
  | _ :: _ :: _ =>
    let included := responses.filter (fun r => decide (70 < r.confidence))
    let merged := ((included.map (fun r => r.recommendations.take 2)).flatten).dedup.take 4
    "Based on my analysis across your care team:\n\n" ++
      concatAll (included.map (fun r => "**" ++ r.agent_name ++ "**: " ++ r.response ++ "\n\n")) ++
      (if merged.isEmpty then ""
       else "**Key Recommendations:**\n" ++ concatAll (merged.map (fun rc => "• " ++ rc ++ "\n")))

/-- Modelled from the spec as amended (claim C1): the recommendation block
merges the first 2 recommendations of EVERY valid response — regardless of
its confidence — in response order, truncated to 4, without deduplication. -/
def synthesizeSpecAmended (responses : List AgentResponse) : String :=
  match responses with
  | [] =>
    "I\x27m here to help coordinate your healthcare. Could you tell me more about what you\x27d like to know?"
  | [r] => r.response
  | _ :: _ :: _ =>
    let included := responses.filter (fun r => decide (70 < r.confidence))
    let merged := ((responses.map (fun r => r.recommendations.take 2)).flatten).take 4
    "Based on my analysis across your care team:\n\n" ++
      concatAll (included.map (fun r => "**" ++ r.agent_name ++ "**: " ++ r.response ++ "\n\n")) ++
      (if merged.isEmpty then ""
       else "**Key Recommendations:**\n" ++ concatAll (merged.map (fun rc => "• " ++ rc ++ "\n")))

/-- A high-confidence response used by claim C1's concrete instances. -/
def highConfResp : AgentResponse :=
  { agent_name := "A", response := "ra", confidence := 90,
    actions_taken := [], recommendations := ["x"] }

/-- A below-threshold response sharing a recommendation with `highConfResp`,
used by claim C1's concrete instances. -/
def lowConfResp : AgentResponse :=
  { agent_name := "B", response := "rb", confidence := 50,
    actions_taken := [], recommendations := ["x"] }

/-- A medication whose name has "metformin" as a proper substring, used by
claim C5's concrete instances. -/
def medMetforminXR : Medication :=
  { patient_id := "p1", name := "Metformin XR", status := MedicationStatus.active }

/-- A single-drug medication list (one half of the furosemide/lisinopril
pair), used by claim C5's concrete instances. -/
def furosemideOnly : List Medication :=
  [{ patient_id := "p2", name := "Furosemide", status := MedicationStatus.active }]

/-- A single-drug medication list (one half of the sertraline/nsaids pair),
used by claim C10's concrete instances. -/
def sertralineOnly : List Medication :=
  [{ patient_id := "p4", name := "Sertraline", status := MedicationStatus.active }]

/-- A store naming carvedilol twice (mixed case) next to metformin, used by
claim C7's concrete instances. -/
def dupDb : Database :=
  { patients := []
    medications :=
      [{ patient_id := "p3", name := "Carvedilol", status := MedicationStatus.active },
       { patient_id := "p3", name := "CARVEDILOL", status := MedicationStatus.active },
       { patient_id := "p3", name := "Metformin", status := MedicationStatus.active }]
    appointments := []
    care_gaps := [] }

/-! ## The demo dataset of `Database._initialize_demo_data` (the fields the
core reads).  Appointment dates are day numbers relative to `demoNow`
(`datetime.now()` at seeding time): `today + 7/14/21 days` and
`today - 30 days`. -/

def demoPatient : Patient :=
  { id := "patient-001"
    conditions :=
      ["Type 2 Diabetes Mellitus", "Essential Hypertension",
       "Chronic Heart Failure (Stage B)", "Major Depressive Disorder",
       "Osteoarthritis (Bilateral Knees)"]
    allergies := ["Penicillin", "Sulfa drugs"] }

def demoNow : Nat := 1000

def demoDb : Database :=
  { patients := [demoPatient]
    medications :=
      [{ patient_id := "patient-001", name := "Metformin", status := MedicationStatus.active },
       { patient_id := "patient-001", name := "Lisinopril", status := MedicationStatus.active },
       { patient_id := "patient-001", name := "Carvedilol", status := MedicationStatus.active },
       { patient_id := "patient-001", name := "Sertraline", status := MedicationStatus.active },
       { patient_id := "patient-001", name := "Furosemide", status := MedicationStatus.active }]
    appointments :=
      [{ patient_id := "patient-001", specialty := "Endocrinology",
         appointment_date := demoNow + 7, status := AppointmentStatus.scheduled },
       { patient_id := "patient-001", specialty := "Cardiology",
         appointment_date := demoNow + 14, status := AppointmentStatus.scheduled },
       { patient_id := "patient-001", specialty := "Psychiatry",
         appointment_date := demoNow + 21, status := AppointmentStatus.scheduled },
       { patient_id := "patient-001", specialty := "Primary Care",
         appointment_date := demoNow - 30, status := AppointmentStatus.completed }]
    care_gaps :=
      [{ id := "gap-001", patient_id := "patient-001",
         title := "Overdue Diabetic Eye Exam", severity := CareGapSeverity.high,
         recommended_action := "Schedule dilated eye exam with ophthalmologist within 30 days",
         resolved := false },
       { id := "gap-002", patient_id := "patient-001",
         title := "Missing Foot Exam", severity := CareGapSeverity.medium,
         recommended_action := "Request foot exam at next endocrinology appointment",
         resolved := false },
       { id := "gap-003", patient_id := "patient-001",
         title := "Depression Screening Due", severity := CareGapSeverity.medium,
         recommended_action := "Complete PHQ-9 questionnaire before next psychiatry visit",
         resolved := false },
       { id := "gap-004", patient_id := "patient-001",
         title := "Flu Vaccination Needed", severity := CareGapSeverity.high,
         recommended_action := "Schedule flu shot at pharmacy or next doctor visit",
         resolved := false }] }

/-! # Theorems

General lemmas about the string and list primitives, followed by the claim
theorems. -/

theorem strData_append : ∀ (a b : String), (a ++ b).data = a.data ++ b.data
  | ⟨_⟩, ⟨_⟩ => rfl

theorem strExt : ∀ {a b : String}, a.data = b.data → a = b
  | ⟨_⟩, ⟨_⟩, rfl => rfl

theorem strAppend_assoc (a b c : String) : a ++ b ++ c = a ++ (b ++ c) :=
  strExt (by simp [strData_append])

theorem strAppend_empty (a : String) : a ++ "" = a :=
  strExt (by simp [strData_append])

theorem strLower_data (s : String) : (strLower s).data = s.data.map Char.toLower := rfl

theorem startsWithChars_of_leading : ∀ (p h : List Char), p <+: h → startsWithChars h p = true := by
  intro p
  induction p with
  | nil => intro h _; cases h <;> rfl
  | cons c ps ih =>
    intro h hp
    obtain ⟨t, rfl⟩ := hp
    show (c == c && startsWithChars (ps ++ t) ps) = true
    simp [ih (ps ++ t) ⟨t, rfl⟩]

theorem charsContain_of_startsWith (h p : List Char) (hs : startsWithChars h p = true) :
    charsContain h p = true := by
  cases h with
  | nil =>
    cases p with
    | nil => rfl
    | cons d ps => simp [startsWithChars] at hs
  | cons c t =>
    show (startsWithChars (c :: t) p || charsContain t p) = true
    simp [hs]

theorem charsContain_cons (c : Char) (t p : List Char) (hc : charsContain t p = true) :
    charsContain (c :: t) p = true := by
  show (startsWithChars (c :: t) p || charsContain t p) = true
  simp [hc]

theorem charsContain_of_parts : ∀ (s p t h : List Char), s ++ p ++ t = h →
    charsContain h p = true := by
  intro s
  induction s with
  | nil =>
    intro p t h hh
    rw [List.nil_append] at hh
    subst hh
    exact charsContain_of_startsWith _ _ (startsWithChars_of_leading _ _ ⟨t, rfl⟩)
  | cons c rest ih =>
    intro p t h hh
    subst hh
    exact charsContain_cons _ _ _ (ih p t _ rfl)

theorem pyIn_of_data_part (n hay : String) (hinf : n.data <:+: hay.data) :
    pyIn n hay = true := by
  obtain ⟨s, t, hst⟩ := hinf
  exact charsContain_of_parts s n.data t hay.data hst

theorem infix_map_chars (f : Char → Char) {l₁ l₂ : List Char} (h : l₁ <:+: l₂) :
    l₁.map f <:+: l₂.map f := by
  obtain ⟨s, t, rfl⟩ := h
  exact ⟨s.map f, t.map f, by simp⟩

theorem data_infix_pyJoin (sep : String) :
    ∀ (l : List String) (s : String), s ∈ l → s.data <:+: (pyJoin sep l).data := by
  intro l
  induction l with
  | nil => intro s hs; cases hs
  | cons x rest ih =>
    intro s hs
    cases rest with
    | nil =>
      rw [List.mem_singleton] at hs
      subst hs
      exact List.infix_refl _
    | cons y rest2 =>
      rcases List.mem_cons.mp hs with rfl | hmem
      · refine ⟨[], sep.data ++ (pyJoin sep (y :: rest2)).data, ?_⟩
        show s.data ++ (sep.data ++ (pyJoin sep (y :: rest2)).data) =
          (s ++ sep ++ pyJoin sep (y :: rest2)).data
        simp [strData_append]
      · obtain ⟨u, v, huv⟩ := ih s hmem
        refine ⟨x.data ++ sep.data ++ u, v, ?_⟩
        show x.data ++ sep.data ++ u ++ s.data ++ v =
          (x ++ sep ++ pyJoin sep (y :: rest2)).data
        rw [strData_append, strData_append, ← huv]
        simp

/-- Membership of a lower-cased active-medication name in `med_names`. -/
theorem mem_activeMedNames {meds : List Medication} {m : Medication}
    (hm : m ∈ meds) (hact : m.status = MedicationStatus.active) :
    strLower m.name ∈ activeMedNames meds := by
  unfold activeMedNames
  exact List.mem_map_of_mem _ (List.mem_filter.mpr ⟨hm, by simp [hact]⟩)

/-- A member of `med_names` occurs in the lower-cased space-joined name
string (the hardcoded combination rule's test), provided lowering the member
again leaves it unchanged (true for the two concrete drugs tested). -/
theorem pyIn_strLower_pyJoin {s : String} (l : List String) (hs : s ∈ l)
    (hfix : s.data.map Char.toLower = s.data) :
    pyIn s (strLower (pyJoin " " l)) = true := by
  apply pyIn_of_data_part
  rw [strLower_data, ← hfix]
  exact infix_map_chars _ (data_infix_pyJoin " " l s hs)

/-- Membership in one loop iteration's contribution. -/
theorem mem_pairAlerts {names : List String} {e : (String × String) × String} {w : String} :
    w ∈ pairAlerts names e ↔
      w = e.2 ∧ (e.1.1 ∈ names ∨ e.1.2 ∈ names) ∧
        names.any (fun n => pyIn e.1.1 (strLower n) || pyIn e.1.2 (strLower n)) = true := by
  unfold pairAlerts
  split
  · split <;> simp_all
  · simp_all

/-- Sufficient condition for an interaction-table warning to be raised. -/
theorem mem_check_of_pair {meds : List Medication} {e : (String × String) × String} {w : String}
    (he : e ∈ INTERACTIONS) (hw : w ∈ pairAlerts (activeMedNames meds) e) :
    w ∈ check_interactions meds := by
  simp only [check_interactions]
  rw [List.mem_dedup]
  exact List.mem_append_left _
    (List.mem_flatten.mpr ⟨pairAlerts (activeMedNames meds) e, List.mem_map_of_mem _ he, hw⟩)

/-- Sufficient condition for the hardcoded combination warning to be raised. -/
theorem mem_check_hypo {meds : List Medication}
    (hg : (pyIn "carvedilol" (strLower (pyJoin " " (activeMedNames meds))) &&
          pyIn "metformin" (strLower (pyJoin " " (activeMedNames meds)))) = true) :
    hypoglycemiaWarning ∈ check_interactions meds := by
  simp only [check_interactions]
  rw [List.mem_dedup]
  apply List.mem_append_right
  simp [hg]

/-- Every raised alert is either a table warning whose outer guard (exact
membership of one of the pair's names in `med_names`) held, or the hardcoded
combination warning. -/
theorem mem_check_cases {meds : List Medication} {w : String}
    (hw : w ∈ check_interactions meds) :
    (∃ e ∈ INTERACTIONS, w = e.2 ∧
      (e.1.1 ∈ activeMedNames meds ∨ e.1.2 ∈ activeMedNames meds)) ∨
    w = hypoglycemiaWarning := by
  simp only [check_interactions] at hw
  rw [List.mem_dedup, List.mem_append] at hw
  rcases hw with hw | hw
  · obtain ⟨l, hl, hwl⟩ := List.mem_flatten.mp hw
    obtain ⟨e, he, rfl⟩ := List.mem_map.mp hl
    obtain ⟨rfl, hguard, -⟩ := mem_pairAlerts.mp hwl
    exact Or.inl ⟨e, he, rfl, hguard⟩
  · right
    split at hw
    · simpa using hw
    · cases hw

/-- The alert list never contains duplicates (`list(set(...))`). -/
theorem check_interactions_nodup (meds : List Medication) :
    (check_interactions meds).Nodup := by
  simp only [check_interactions]
  exact List.nodup_dedup _

/-! Fold-to-concatenation lemmas for the synthesizer's string-building
loops. -/

theorem foldl_ite_concat {α : Type} (p : α → Prop) [DecidablePred p] (f : α → String) :
    ∀ (l : List α) (init : String),
      l.foldl (fun s r => if p r then s ++ f r else s) init =
        init ++ concatAll ((l.filter (fun r => decide (p r))).map f) := by
  intro l
  induction l with
  | nil => intro init; simp [concatAll, strAppend_empty]
  | cons a t ih =>
    intro init
    by_cases hp : p a
    · simp [List.filter_cons, hp, ih, concatAll, strAppend_assoc]
    · simp [List.filter_cons, hp, ih]

theorem foldl_append_flatten {α : Type} (g : α → List String) :
    ∀ (l : List α) (init : List String),
      l.foldl (fun acc r => acc ++ g r) init = init ++ (l.map g).flatten := by
  intro l
  induction l with
  | nil => intro init; simp
  | cons a t ih => intro init; simp [ih]

theorem foldl_str_concat (f : String → String) :
    ∀ (l : List String) (init : String),
      l.foldl (fun s x => s ++ f x) init = init ++ concatAll (l.map f) := by
  intro l
  induction l with
  | nil => intro init; simp [concatAll, strAppend_empty]
  | cons a t ih => intro init; simp [concatAll, ih, strAppend_assoc]

/-- C1 (amended): with at least two responses, the synthesizer's output is
exactly the amended-spec composite — the narrative sections are exactly the
confidence>0.7 responses, each prefixed by its agent name, followed by at
most 4 recommendations skimmed (2 each) from EVERY valid response (regardless
of confidence), in response order, without deduplication. -/
theorem synthesize_eq_specAmended (msg : String) :
    ∀ (rs : List AgentResponse), 2 ≤ rs.length →
      synthesize_responses msg rs = synthesizeSpecAmended rs := by
  intro rs h2
  match rs with
  | [] => simp at h2
  | [r] => simp at h2
  | a :: b :: t =>
    show synthesize_responses msg (a :: b :: t) = synthesizeSpecAmended (a :: b :: t)
    simp only [synthesize_responses, synthesizeSpecAmended]
    rw [foldl_ite_concat (fun (r : AgentResponse) => 70 < r.confidence)
      (fun (r : AgentResponse) => "**" ++ r.agent_name ++ "**: " ++ r.response ++ "\n\n")]
    rw [foldl_append_flatten (fun (r : AgentResponse) => r.recommendations.take 2)]
    rw [List.nil_append]
    cases hfl : ((a :: b :: t).map (fun r => r.recommendations.take 2)).flatten with
    | nil =>
      simp only [List.isEmpty_nil, List.take_nil, if_true]
      rw [strAppend_empty]
    | cons x xs =>
      simp only [List.isEmpty_cons, Bool.false_eq_true, if_false]
      rw [foldl_str_concat (fun rc => "• " ++ rc ++ "\n")]
      rw [strAppend_assoc]
      simp

/-! Agent names of the four `process` implementations, and router range
facts used to analyse `process_message`'s aggregation step. -/

theorem historyProcess_name (db : Database) (pid msg : String) :
    (historyProcess db pid msg).agent_name = "Patient History Agent" := by
  unfold historyProcess
  split <;> rfl

theorem appointmentProcess_name (db : Database) (now : Nat) (pid msg : String) :
    (appointmentProcess db now pid msg).agent_name = "Appointment Coordination Agent" := rfl

theorem router_subset (msg : String) :
    ∀ k ∈ determine_relevant_agents msg, k ∈ allAgentKeys := by
  intro k hk
  unfold determine_relevant_agents at hk
  split at hk
  · exact hk
  · unfold routerMatches at hk
    simp only [List.mem_append] at hk
    rcases hk with ((hk | hk) | hk) | hk <;>
      (split at hk <;> simp_all [allAgentKeys])

theorem medicationProcess_name (db : Database) (pid msg : String) :
    (medicationProcess db pid msg).agent_name = "Medication Reconciliation Agent" := rfl

theorem careGapProcess_name (db : Database) (pid msg : String) :
    (careGapProcess db pid msg).agent_name = "Care Gap Detection Agent" := rfl

theorem router_count_appointment (msg : String) :
    (determine_relevant_agents msg).count "appointment" ≤ 1 := by
  cases hh : historyKeywords.any (fun w => pyIn w (strLower msg)) <;>
  cases hm : medicationKeywords.any (fun w => pyIn w (strLower msg)) <;>
  cases hc : careGapKeywords.any (fun w => pyIn w (strLower msg)) <;>
  cases ha : appointmentKeywords.any (fun w => pyIn w (strLower msg)) <;>
  cases hb : broadKeywords.any (fun w => pyIn w (strLower msg)) <;>
  simp [determine_relevant_agents, routerMatches, hh, hm, hc, ha, hb] <;>
  decide

/-- The `appointment_suggestions` collection step: over any key list drawn
from the registry that names the appointment agent at most once, the
comprehension keeps exactly the first recommendation of the appointment
response (when there is one). -/
theorem filterMap_pick_keys (db : Database) (now : Nat) (pid msg : String) :
    ∀ (l : List String), (∀ k ∈ l, k ∈ allAgentKeys) → List.count "appointment" l ≤ 1 →
      (l.map (fun key => runAgent db now key pid msg)).filterMap pickAppointmentFirst =
        if "appointment" ∈ l then (appointmentProcess db now pid msg).recommendations.take 1
        else [] := by
  intro l
  induction l with
  | nil => intro _ _; simp
  | cons k t ih =>
    intro hall hcount
    have htail : ∀ x ∈ t, x ∈ allAgentKeys := fun x hx => hall x (List.mem_cons_of_mem _ hx)
    have hk4 : k = "history" ∨ k = "medication" ∨ k = "care_gap" ∨ k = "appointment" := by
      simpa [allAgentKeys] using hall k (List.mem_cons_self k t)
    rcases hk4 with rfl | rfl | rfl | rfl
    · have hpick : pickAppointmentFirst (runAgent db now "history" pid msg) = none := by
        unfold runAgent
        rw [if_pos rfl]
        unfold pickAppointmentFirst
        rw [historyProcess_name]
        exact if_neg (by decide)
      have hcount2 : List.count "appointment" t ≤ 1 := by
        simpa [List.count_cons] using hcount
      simp only [List.map_cons, List.filterMap_cons, hpick]
      rw [ih htail hcount2]
      simp [List.mem_cons, show ¬("appointment" = "history") by decide]
    · have hpick : pickAppointmentFirst (runAgent db now "medication" pid msg) = none := by
        unfold runAgent
        rw [if_neg (by decide), if_pos rfl]
        unfold pickAppointmentFirst
        rw [medicationProcess_name]
        exact if_neg (by decide)
      have hcount2 : List.count "appointment" t ≤ 1 := by
        simpa [List.count_cons] using hcount
      simp only [List.map_cons, List.filterMap_cons, hpick]
      rw [ih htail hcount2]
      simp [List.mem_cons, show ¬("appointment" = "medication") by decide]
    · have hpick : pickAppointmentFirst (runAgent db now "care_gap" pid msg) = none := by
        unfold runAgent
        rw [if_neg (by decide), if_neg (by decide), if_pos rfl]
        unfold pickAppointmentFirst
        rw [careGapProcess_name]
        exact if_neg (by decide)
      have hcount2 : List.count "appointment" t ≤ 1 := by
        simpa [List.count_cons] using hcount
      simp only [List.map_cons, List.filterMap_cons, hpick]
      rw [ih htail hcount2]
      simp [List.mem_cons, show ¬("appointment" = "care_gap") by decide]
    · have hrun : runAgent db now "appointment" pid msg = appointmentProcess db now pid msg := by
        unfold runAgent
        rw [if_neg (by decide), if_neg (by decide), if_neg (by decide)]
      have h1 : List.count "appointment" t + 1 ≤ 1 := by
        simpa [List.count_cons] using hcount
      have h0 : List.count "appointment" t = 0 := by omega
      have hnot : "appointment" ∉ t := by
        intro hmem
        rw [List.count_eq_zero] at h0
        exact h0 hmem
      simp only [List.map_cons, List.filterMap_cons, hrun]
      rw [ih htail (by omega), if_neg hnot, if_pos (List.mem_cons_self _ _)]
      unfold pickAppointmentFirst
      rw [appointmentProcess_name, if_pos rfl]
      cases hrec : (appointmentProcess db now pid msg).recommendations with
      | nil => simp
      | cons a rest => simp

/-! ## Claim theorems -/

/-! Facts about the concrete interaction table, shared by claims C5, C7 and
C10. -/

theorem INTERACTIONS_warning_inj :
    ∀ e1 ∈ INTERACTIONS, ∀ e2 ∈ INTERACTIONS, e1.2 = e2.2 → e1 = e2 := by decide

theorem INTERACTIONS_not_hypo : ∀ e ∈ INTERACTIONS, e.2 ≠ hypoglycemiaWarning := by decide

theorem INTERACTIONS_self_lower :
    ∀ e ∈ INTERACTIONS,
      pyIn e.1.1 (strLower e.1.1) = true ∧ pyIn e.1.2 (strLower e.1.2) = true := by decide

/-- A table warning is raised whenever one of its two drug names exactly
equals a lower-cased active medication name. -/
theorem mem_check_of_exact {meds : List Medication} {d1 d2 w : String}
    (hmem : ((d1, d2), w) ∈ INTERACTIONS)
    (hside : d1 ∈ activeMedNames meds ∨ d2 ∈ activeMedNames meds) :
    w ∈ check_interactions meds := by
  apply mem_check_of_pair hmem
  apply mem_pairAlerts.mpr
  refine ⟨rfl, hside, List.any_eq_true.mpr ?_⟩
  obtain ⟨hf1, hf2⟩ := INTERACTIONS_self_lower _ hmem
  rcases hside with hd | hd
  · exact ⟨d1, hd, by simp [hf1]⟩
  · exact ⟨d2, hd, by simp [hf2]⟩

/-- C1, counterexample: on two concrete responses (confidences 0.90 and 0.50,
equal single recommendations) the synthesizer's output differs from the
claimed composite — the below-threshold response's recommendation is merged
in, twice, so the recommendation list is neither confidence-filtered nor
deduplicated. -/
theorem C1_counterexample :
    synthesize_responses "m" [highConfResp, lowConfResp] ≠
      synthesizeSpecClaimed [highConfResp, lowConfResp] ∧
    pyIn "• x\n• x\n" (synthesize_responses "m" [highConfResp, lowConfResp]) = true ∧
    lowConfResp.confidence ≤ 70 := by decide

/-- C1, witness for the amended theorem at a concrete two-response input. -/
theorem C1_witness :
    2 ≤ ([highConfResp, lowConfResp] : List AgentResponse).length ∧
    synthesize_responses "m" [highConfResp, lowConfResp] =
      synthesizeSpecAmended [highConfResp, lowConfResp] :=
  ⟨by decide, synthesize_eq_specAmended "m" [highConfResp, lowConfResp] (by decide)⟩

/-- C2, counterexample: the end-to-end message contains the broad-query
keyword "what", so the router does NOT select exactly the medication
agent. -/
theorem C2_counterexample :
    determine_relevant_agents "What medications interact with my heart failure drugs?" ≠
      ["medication"] := by decide

set_option maxRecDepth 200000 in
/-- C2 (amended): on "What medications interact with my heart failure
drugs?" the router selects all four agents (the broad-query keyword "what"
matches), and — with Carvedilol and Metformin active for the demo patient —
the beta-blocker/biguanide warning is raised by the medication agent and
appears in the orchestrated primary response. -/
theorem C2_router_broad_and_warning :
    determine_relevant_agents "What medications interact with my heart failure drugs?" =
      ["history", "medication", "care_gap", "appointment"] ∧
    "Beta-blockers may mask hypoglycemia symptoms in diabetics" ∈
      check_interactions (patientActiveMeds demoDb "patient-001") ∧
    pyIn "Beta-blockers may mask hypoglycemia symptoms in diabetics"
      ((processMessage demoDb demoNow "patient-001"
        "What medications interact with my heart failure drugs?").primary_response) = true := by
  decide

/-- C3, counterexample: invoked directly with an unknown patient id, the
Medication, Care-Gap and Appointment agents do not return the claimed
zero-confidence response; they keep their fixed confidences. -/
theorem C3_counterexample :
    (medicationProcess demoDb "unknown-patient" "hello").confidence = 95 ∧
    (medicationProcess demoDb "unknown-patient" "hello").confidence ≠ 0 ∧
    (careGapProcess demoDb "unknown-patient" "hello").confidence = 90 ∧
    (appointmentProcess demoDb demoNow "unknown-patient" "hello").confidence = 85 := by
  decide

/-- C3 (amended): for an unknown patient id only the History agent returns
the zero-confidence "Patient not found in the system." response; the other
three agents return their usual fixed-confidence responses over empty data,
and (being total functions) none raises. -/
theorem C3_unknown_patient :
    ∀ (db : Database) (now : Nat) (pid msg : String),
      db.patients.find? (fun p => decide (p.id = pid)) = none →
      (historyProcess db pid msg).confidence = 0 ∧
      (historyProcess db pid msg).response = "Patient not found in the system." ∧
      (medicationProcess db pid msg).confidence = 95 ∧
      (careGapProcess db pid msg).confidence = 90 ∧
      (appointmentProcess db now pid msg).confidence = 85 := by
  intro db now pid msg hfind
  refine ⟨?_, ?_, rfl, rfl, rfl⟩ <;> simp [historyProcess, hfind]

/-- C3, witness at a concrete unknown patient id. -/
theorem C3_witness :
    demoDb.patients.find? (fun p => decide (p.id = "ghost")) = none ∧
    ((historyProcess demoDb "ghost" "hi").confidence = 0 ∧
     (historyProcess demoDb "ghost" "hi").response = "Patient not found in the system." ∧
     (medicationProcess demoDb "ghost" "hi").confidence = 95 ∧
     (careGapProcess demoDb "ghost" "hi").confidence = 90 ∧
     (appointmentProcess demoDb demoNow "ghost" "hi").confidence = 85) :=
  ⟨by decide, C3_unknown_patient demoDb demoNow "ghost" "hi" (by decide)⟩

/-- C4: with zero valid responses the synthesizer returns the fixed
prompt-for-more-info string, and with exactly one valid response it passes
that response's text through unchanged. -/
theorem C4_synthesize_identity (msg : String) (r : AgentResponse) :
    synthesize_responses msg [] =
      "I\x27m here to help coordinate your healthcare. Could you tell me more about what you\x27d like to know?" ∧
    synthesize_responses msg [r] = r.response :=
  ⟨rfl, rfl⟩

/-- C5, counterexample: "metformin" appears as a proper substring of the
active medication name "Metformin XR", yet the metformin/contrast pair's
warning is not raised — the outer guard is exact list membership, not
substring matching. -/
theorem C5_counterexample :
    (("metformin", "contrast"),
      "Metformin should be held 48 hours before and after IV contrast procedures") ∈ INTERACTIONS ∧
    medMetforminXR.status = MedicationStatus.active ∧
    pyIn "metformin" (strLower medMetforminXR.name) = true ∧
    "Metformin should be held 48 hours before and after IV contrast procedures" ∉
      check_interactions [medMetforminXR] := by decide

/-- C5 (amended): a table pair's warning is included in the alert list iff
one of the pair's drug names is exactly equal to the lower-cased name of some
active medication (the inner substring test is then automatically satisfied
by that same medication). -/
theorem C5_exact_match_iff :
    ∀ (meds : List Medication) (d1 d2 w : String), ((d1, d2), w) ∈ INTERACTIONS →
      (w ∈ check_interactions meds ↔
        (d1 ∈ activeMedNames meds ∨ d2 ∈ activeMedNames meds)) := by
  intro meds d1 d2 w hmem
  constructor
  · intro hw
    rcases mem_check_cases hw with ⟨e, he, hwe, hguard⟩ | hhypo
    · have heq : e = ((d1, d2), w) :=
        INTERACTIONS_warning_inj e he ((d1, d2), w) hmem hwe.symm
      rw [heq] at hguard
      exact hguard
    · exact absurd hhypo (INTERACTIONS_not_hypo _ hmem)
  · intro hside
    exact mem_check_of_exact hmem hside

/-- C5, witness at a concrete active medication list. -/
theorem C5_witness :
    (("furosemide", "lisinopril"),
      "Both affect blood pressure - monitor for hypotension") ∈ INTERACTIONS ∧
    "Both affect blood pressure - monitor for hypotension" ∈
      check_interactions furosemideOnly :=
  ⟨by decide,
   (C5_exact_match_iff furosemideOnly "furosemide" "lisinopril"
      "Both affect blood pressure - monitor for hypotension" (by decide)).mpr
     (by decide)⟩

/-- C6: a message matching a care-gap keyword, no keyword of the other three
agents and no broad-query keyword routes to exactly the care-gap agent. -/
theorem C6_router_care_gap_only :
    ∀ (msg : String),
      careGapKeywords.any (fun w => pyIn w (strLower msg)) = true →
      historyKeywords.any (fun w => pyIn w (strLower msg)) = false →
      medicationKeywords.any (fun w => pyIn w (strLower msg)) = false →
      appointmentKeywords.any (fun w => pyIn w (strLower msg)) = false →
      broadKeywords.any (fun w => pyIn w (strLower msg)) = false →
      determine_relevant_agents msg = ["care_gap"] := by
  intro msg hc hh hm ha hb
  simp [determine_relevant_agents, routerMatches, hc, hh, hm, ha, hb]

/-- C6, witness on the message "overdue screening". -/
theorem C6_witness :
    (careGapKeywords.any (fun w => pyIn w (strLower "overdue screening")) = true ∧
     historyKeywords.any (fun w => pyIn w (strLower "overdue screening")) = false ∧
     medicationKeywords.any (fun w => pyIn w (strLower "overdue screening")) = false ∧
     appointmentKeywords.any (fun w => pyIn w (strLower "overdue screening")) = false ∧
     broadKeywords.any (fun w => pyIn w (strLower "overdue screening")) = false) ∧
    determine_relevant_agents "overdue screening" = ["care_gap"] :=
  ⟨⟨by decide, by decide, by decide, by decide, by decide⟩,
   C6_router_care_gap_only "overdue screening"
     (by decide) (by decide) (by decide) (by decide) (by decide)⟩

/-- C7: whenever a patient has active medications named (case-insensitively)
Carvedilol and Metformin, the medication agent's alert list contains the
masking-hypoglycemia combination warning exactly once, and the alert list
never contains duplicates. -/
theorem C7_hypo_warning_once :
    ∀ (db : Database) (pid : String),
      (∃ m ∈ db.medications, m.patient_id = pid ∧ m.status = MedicationStatus.active ∧
        strLower m.name = "carvedilol") →
      (∃ m ∈ db.medications, m.patient_id = pid ∧ m.status = MedicationStatus.active ∧
        strLower m.name = "metformin") →
      (check_interactions (patientActiveMeds db pid)).count hypoglycemiaWarning = 1 ∧
      (check_interactions (patientActiveMeds db pid)).Nodup := by
  intro db pid hc hm
  have hnames : ∀ (s : String),
      (∃ m ∈ db.medications, m.patient_id = pid ∧ m.status = MedicationStatus.active ∧
        strLower m.name = s) → s ∈ activeMedNames (patientActiveMeds db pid) := by
    rintro s ⟨m, hmem, hpid, hact, hname⟩
    rw [← hname]
    exact mem_activeMedNames
      (List.mem_filter.mpr ⟨List.mem_filter.mpr ⟨hmem, by simp [hpid]⟩, by simp [hact]⟩) hact
  have hg1 := pyIn_strLower_pyJoin (activeMedNames (patientActiveMeds db pid))
    (hnames _ hc) (by decide)
  have hg2 := pyIn_strLower_pyJoin (activeMedNames (patientActiveMeds db pid))
    (hnames _ hm) (by decide)
  have hin : hypoglycemiaWarning ∈ check_interactions (patientActiveMeds db pid) :=
    mem_check_hypo (by rw [hg1, hg2]; rfl)
  exact ⟨List.count_eq_one_of_mem (check_interactions_nodup _) hin,
    check_interactions_nodup _⟩

/-- C7, witness on a store that names carvedilol twice (mixed case). -/
theorem C7_witness :
    ((∃ m ∈ dupDb.medications, m.patient_id = "p3" ∧ m.status = MedicationStatus.active ∧
        strLower m.name = "carvedilol") ∧
     (∃ m ∈ dupDb.medications, m.patient_id = "p3" ∧ m.status = MedicationStatus.active ∧
        strLower m.name = "metformin")) ∧
    ((check_interactions (patientActiveMeds dupDb "p3")).count hypoglycemiaWarning = 1 ∧
     (check_interactions (patientActiveMeds dupDb "p3")).Nodup) :=
  ⟨⟨by decide, by decide⟩, C7_hypo_warning_once dupDb "p3" (by decide) (by decide)⟩

/-- C8: for a known patient, `care_gaps_detected` is the first three of the
patient's unresolved care gaps in store iteration order, so its length is
`min N 3` where `N` counts the unresolved gaps. -/
theorem C8_care_gaps_detected :
    ∀ (db : Database) (now : Nat) (pid msg : String),
      (db.patients.find? (fun p => decide (p.id = pid))).isSome = true →
      (processMessage db now pid msg).care_gaps_detected = (unresolvedGaps db pid).take 3 ∧
      (processMessage db now pid msg).care_gaps_detected.length =
        min (unresolvedGaps db pid).length 3 := by
  intro db now pid msg _
  refine ⟨rfl, ?_⟩
  show ((unresolvedGaps db pid).take 3).length = _
  rw [List.length_take, Nat.min_comm]

/-- C8, witness on the demo patient (4 unresolved gaps, so 3 are kept). -/
theorem C8_witness :
    (demoDb.patients.find? (fun p => decide (p.id = "patient-001"))).isSome = true ∧
    ((processMessage demoDb demoNow "patient-001" "hello").care_gaps_detected =
        (unresolvedGaps demoDb "patient-001").take 3 ∧
     (processMessage demoDb demoNow "patient-001" "hello").care_gaps_detected.length =
        min (unresolvedGaps demoDb "patient-001").length 3) :=
  ⟨by decide, C8_care_gaps_detected demoDb demoNow "patient-001" "hello" (by decide)⟩

/-- C9: `appointment_suggestions` is exactly the first recommendation of the
appointment agent's response when that agent was selected (and it produced
any), hence always has length at most 1 despite the `[:2]` cap. -/
theorem C9_appointment_suggestions :
    ∀ (db : Database) (now : Nat) (pid msg : String),
      (processMessage db now pid msg).appointment_suggestions =
        (if "appointment" ∈ determine_relevant_agents msg
         then (appointmentProcess db now pid msg).recommendations.take 1
         else []) ∧
      (processMessage db now pid msg).appointment_suggestions.length ≤ 1 := by
  intro db now pid msg
  have hsug : (processMessage db now pid msg).appointment_suggestions =
      (((determine_relevant_agents msg).map (fun key => runAgent db now key pid msg)).filterMap
        pickAppointmentFirst).take 2 := rfl
  rw [hsug, filterMap_pick_keys db now pid msg (determine_relevant_agents msg)
    (router_subset msg) (router_count_appointment msg)]
  constructor
  · split
    · rw [List.take_take]
      norm_num
    · rfl
  · split
    · rw [List.take_take]
      have h1 : min 2 1 = 1 := by norm_num
      rw [h1]
      exact List.length_take_le _ _
    · simp

/-- C10: an exact (lower-cased) name match with a single drug of a table
pair suffices to raise that pair's warning, with no requirement on the other
drug. -/
theorem C10_single_drug_triggers :
    ∀ (meds : List Medication) (d1 d2 w : String),
      ((d1, d2), w) ∈ INTERACTIONS →
      (∃ m ∈ meds, m.status = MedicationStatus.active ∧
        (strLower m.name = d1 ∨ strLower m.name = d2)) →
      w ∈ check_interactions meds := by
  rintro meds d1 d2 w hmem ⟨m, hm, hact, hname | hname⟩
  · exact mem_check_of_exact hmem (Or.inl (hname ▸ mem_activeMedNames hm hact))
  · exact mem_check_of_exact hmem (Or.inr (hname ▸ mem_activeMedNames hm hact))

/-- C10, witness: Sertraline alone (no NSAID on the list) already raises the
sertraline/nsaids warning. -/
theorem C10_witness :
    ((("sertraline", "nsaids"), "SSRIs with NSAIDs increase bleeding risk") ∈ INTERACTIONS ∧
     (∃ m ∈ sertralineOnly, m.status = MedicationStatus.active ∧
        (strLower m.name = "sertraline" ∨ strLower m.name = "nsaids"))) ∧
    "SSRIs with NSAIDs increase bleeding risk" ∈ check_interactions sertralineOnly :=
  ⟨⟨by decide, by decide⟩,
   C10_single_drug_triggers sertralineOnly "sertraline" "nsaids"
     "SSRIs with NSAIDs increase bleeding risk" (by decide) (by decide)⟩
